import Mathlib

/-!
Shallow embedding of `src/lib/elasticsearch-stream.js`
(majoer/elasticsearch-scroll-stream).

The source is a Node.js `Readable` stream driving an Elasticsearch scroll
query.  We model:
  * JS objects that hold record fields as association lists (`Obj`) with
    first-match lookup and in-place update, matching JS property semantics;
  * the engine's mutable instance fields (`_reading`, `_counter`, `_total`,
    `_forceClose`) as `EngineState`;
  * one invocation of the response callback `getMoreUntilDone` as a pure
    function from the engine state and the client's reply to the updated
    state, the list of observable events (pushes, error emissions, console
    logs) and the single follow-up client call it issues (`Next`);
  * the `clearScroll` callback (with its `setImmediate`-deferred
    reset-and-end block modelled separately as `deferredFinalize`);
  * `_read` (the pull entry point) and `close`.
-/

/-- JS field values as they appear in emitted records (opaque payloads). -/
inductive JsVal where
  | undef : JsVal
  | str : String → JsVal
  | num : Int → JsVal
  deriving DecidableEq, Repr

/-- A JS object holding record fields: key/value pairs, first match wins. -/
abbrev Obj := List (String × JsVal)

/-- JS property read `o[k]`: first matching key, `undefined` if absent. -/
def objGet : Obj → String → JsVal
  | [], _ => JsVal.undef
  | (k', v') :: rest, k => if k' = k then v' else objGet rest k

/-- JS property write `o[k] = v`: update the existing slot in place,
otherwise append a new one. -/
def objSet : Obj → String → JsVal → Obj
  | [], k, v => [(k, v)]
  | (k', v') :: rest, k, v =>
    if k' = k then (k', v) :: rest else (k', v') :: objSet rest k v

/-- One hit of a page: the optional server-selected `fields` projection,
the full `_source` body, and the hit's top-level metadata attributes
(`_id`, `_score`, ... — what `hit[entry]` reads). -/
structure Hit where
  fields : Option Obj
  source : Obj
  top : Obj
  deriving DecidableEq, Repr

/-- `hits.total` as reported by the server: a plain count (pre-7.x) or a
structured `{value, relation}` object (7.x+). -/
inductive TotalVal where
  | plain : Int → TotalVal
  | structured : Int → String → TotalVal
  deriving DecidableEq, Repr

/-- Line 53: `typeof body.hits.total === 'object' ? body.hits.total.value
: body.hits.total`. -/
def normalizeTotal : TotalVal → Int
  | TotalVal.plain n => n
  | TotalVal.structured v _ => v

/-- `body._shards`: the failed count plus the rest of the object, carried
verbatim into the shard-failure error. -/
structure Shards where
  failed : Int
  detail : String
  deriving DecidableEq, Repr

/-- The response body: `hits.total`, `timedOut`, `_shards`, `hits.hits`,
`_scroll_id`. -/
structure Body where
  total : TotalVal
  timedOut : Bool
  shards : Shards
  hits : List Hit
  scrollId : String
  deriving DecidableEq, Repr

/-- Line 52: `var body = !!response.body ? response.body : response` —
the reply either wraps the body in a `body` property or is the body. -/
inductive Response where
  | withBody : Body → Response
  | bare : Body → Response
  deriving DecidableEq, Repr

def Response.getBody : Response → Body
  | Response.withBody b => b
  | Response.bare b => b

/-- An error value handed by the client library to the callback; the
engine treats it as opaque. -/
structure JsErr where
  payload : String
  deriving DecidableEq, Repr

/-- The error objects the engine emits on the error channel.  `client` is
the client's own error forwarded verbatim (line 43); the other three are
the object literals of lines 57-62, 66-71 and 79-84. -/
inductive ErrVal where
  | client : JsErr → ErrVal
  | timeout : String → Int → Nat → ErrVal
  | shardFailure : String → Shards → Int → Nat → ErrVal
  | incomplete : String → Int → Nat → Int → ErrVal
  deriving DecidableEq, Repr

/-- The `message` property of an emitted error, when the engine set one. -/
def ErrVal.message? : ErrVal → Option String
  | ErrVal.client _ => none
  | ErrVal.timeout m _ _ => some m
  | ErrVal.shardFailure m _ _ _ => some m
  | ErrVal.incomplete m _ _ _ => some m

/-- The `total` property of an emitted error, when the engine set one. -/
def ErrVal.total? : ErrVal → Option Int
  | ErrVal.client _ => none
  | ErrVal.timeout _ t _ => some t
  | ErrVal.shardFailure _ _ t _ => some t
  | ErrVal.incomplete _ t _ _ => some t

/-- The `counter` property of an emitted error, when the engine set one. -/
def ErrVal.counter? : ErrVal → Option Nat
  | ErrVal.client _ => none
  | ErrVal.timeout _ _ c => some c
  | ErrVal.shardFailure _ _ _ c => some c
  | ErrVal.incomplete _ _ c _ => some c

/-- Whether the error is the client's own error forwarded verbatim. -/
def ErrVal.isClient : ErrVal → Bool
  | ErrVal.client _ => true
  | _ => false

/-- Whether the error is the zero-hits `IncompleteResultError` literal. -/
def ErrVal.isIncomplete : ErrVal → Bool
  | ErrVal.incomplete _ _ _ _ => true
  | _ => false

/-- Observable events of one callback invocation, in program order. -/
inductive Ev where
  | pushObj : Obj → Ev
  | pushText : Obj → Ev
  | pushNull : Ev
  | emitError : ErrVal → Ev
  | logMsg : String → Ev
  | logError : JsErr → Ev
  deriving DecidableEq, Repr

def Ev.isEmitError : Ev → Bool
  | Ev.emitError _ => true
  | _ => false

def Ev.isIncompleteError : Ev → Bool
  | Ev.emitError e => e.isIncomplete
  | _ => false

def Ev.isPush : Ev → Bool
  | Ev.pushObj _ => true
  | Ev.pushText _ => true
  | Ev.pushNull => true
  | _ => false

/-- The one follow-up client call the callback issues (lines 106-128), or
none when it bailed out with an error. -/
inductive Next where
  | scrollNext : String → String → Next
  | clearNext : String → Next
  | errorStop : Next
  deriving DecidableEq, Repr

def Next.isScroll : Next → Bool
  | Next.scrollNext _ _ => true
  | _ => false

/-- The engine's mutable instance fields (constructor, lines 25-28). -/
structure EngineState where
  reading : Bool
  counter : Nat
  total : Int
  forceClose : Bool
  deriving DecidableEq, Repr

/-- Per-instance configuration fixed at construction: `_options.scroll`
(keep-alive, line 24), `_extrafields`, and the stream's `objectMode`. -/
structure Config where
  scroll : String
  extrafields : List String
  objectMode : Bool
  deriving DecidableEq, Repr

/-- Lines 87-98: base fields are `hit.fields` when present else
`hit._source`; then every extra field is copied from the hit's top level,
overwriting. -/
def buildRecord (extrafields : List String) (hit : Hit) : Obj :=
  let base := match hit.fields with
    | some f => f
    | none => hit.source
  extrafields.foldl (fun acc entry => objSet acc entry (objGet hit.top entry)) base

/-- Line 100: `self.push(objectMode ? ref_results :
JSON.stringify(ref_results))`. -/
def pushHit (cfg : Config) (r : Obj) : Ev :=
  if cfg.objectMode then Ev.pushObj r else Ev.pushText r

/-- One invocation of the response callback `getMoreUntilDone`
(lines 41-129): returns the updated engine state, the events in program
order, and the follow-up client call. -/
def getMoreUntilDone (cfg : Config) (st : EngineState)
    (resp : Except JsErr Response) : EngineState × List Ev × Next :=
  match resp with
  | Except.error err => (st, [Ev.emitError (ErrVal.client err)], Next.errorStop)
  | Except.ok response =>
    let body := response.getBody
    let st1 : EngineState := { st with total := normalizeTotal body.total }
    if body.timedOut then
      (st1,
       [Ev.emitError (ErrVal.timeout "Scroll request timed out" st1.total st1.counter)],
       Next.errorStop)
    else if body.shards.failed > 0 then
      (st1,
       [Ev.emitError (ErrVal.shardFailure "At least one shard failed" body.shards
          st1.total st1.counter)],
       Next.errorStop)
    else if body.hits.length = 0 then
      let missing : Int := st1.total - (st1.counter : Int)
      (st1,
       [Ev.logMsg ("Read 0 (" ++ toString st1.counter ++ "/" ++ toString st1.total ++ ")"),
        Ev.emitError (ErrVal.incomplete
          ("No more hits. Expected " ++ toString missing ++ " more objects. Closing stream.")
          st1.total st1.counter missing)],
       Next.errorStop)
    else
      let pushes := body.hits.map (fun hit => pushHit cfg (buildRecord cfg.extrafields hit))
      let st2 : EngineState := { st1 with counter := st1.counter + body.hits.length }
      let evs := pushes ++
        [Ev.logMsg ("Read " ++ toString body.hits.length ++ " (" ++ toString st2.counter
          ++ "/" ++ toString st2.total ++ ")")]
      if st2.total ≠ (st2.counter : Int) ∧ st2.forceClose = false then
        (st2, evs, Next.scrollNext cfg.scroll body.scrollId)
      else
        (st2, evs, Next.clearNext body.scrollId)

/-- The `clearScroll` callback (lines 116-127): its synchronous part
(state is untouched; a release failure is only logged) and whether the
`setImmediate` finalization block was scheduled (it always is). -/
def clearScrollCallback (st : EngineState) (err : Option JsErr) :
    EngineState × List Ev × Bool :=
  match err with
  | some e => (st, [Ev.logError e], true)
  | none => (st, [], true)

/-- The `setImmediate` block of lines 121-126: reset `_reading`,
`_counter`, `_forceClose` and push end-of-stream. -/
def deferredFinalize (st : EngineState) : EngineState × List Ev :=
  ({ st with reading := false, counter := 0, forceClose := false },
   [Ev.pushNull])

/-- What a `_read` call did: nothing (re-entry guard) or issued the
initial search. -/
inductive ReadAction where
  | noCall : ReadAction
  | searchIssued : ReadAction
  deriving DecidableEq, Repr

/-- `_read` (lines 34-41): bail out while a read is in flight, otherwise
mark in-flight and issue the search. -/
def readStep (st : EngineState) : EngineState × ReadAction :=
  if st.reading then (st, ReadAction.noCall)
  else ({ st with reading := true }, ReadAction.searchIssued)

/-- `close` (lines 132-134): set `_forceClose`. -/
def close (st : EngineState) : EngineState :=
  { st with forceClose := true }

/-- Consumer/operator operations available on an idle engine. -/
inductive Op where
  | pull : Op
  | closeOp : Op
  deriving DecidableEq, Repr

def applyOp (st : EngineState) (op : Op) : EngineState × ReadAction :=
  match op with
  | Op.pull => readStep st
  | Op.closeOp => (close st, ReadAction.noCall)

/-- Run a sequence of pulls and closes, collecting the client calls each
one triggered. -/
def applyOps (st : EngineState) : List Op → EngineState × List ReadAction
  | [] => (st, [])
  | op :: ops =>
    let r := applyOp st op
    let rest := applyOps r.1 ops
    (rest.1, r.2 :: rest.2)

/-! ### Object lookup/update lemmas -/

theorem objGet_objSet_self (o : Obj) (k : String) (v : JsVal) :
    objGet (objSet o k v) k = v := by
  induction o with
  | nil => simp [objSet, objGet]
  | cons p rest ih =>
    cases p with
    | mk a b =>
      by_cases ha : a = k
      · simp [objSet, objGet, ha]
      · simp [objSet, objGet, ha, ih]

theorem objGet_objSet_other (o : Obj) (k k' : String) (v : JsVal)
    (h : k ≠ k') : objGet (objSet o k v) k' = objGet o k' := by
  induction o with
  | nil => simp [objSet, objGet, h]
  | cons p rest ih =>
    cases p with
    | mk a b =>
      by_cases ha : a = k
      · subst ha
        simp [objSet, objGet, h]
      · simp [objSet, objGet, ha, ih]

theorem objGet_fold_extras (top : Obj) (ef : List String) (acc : Obj)
    (k : String) :
    objGet (ef.foldl (fun a e => objSet a e (objGet top e)) acc) k =
      if k ∈ ef then objGet top k else objGet acc k := by
  induction ef generalizing acc with
  | nil => simp
  | cons e es ih =>
    simp only [List.foldl_cons]
    rw [ih]
    by_cases hk : k ∈ es
    · simp [hk]
    · by_cases he : k = e
      · subst he
        simp [hk, objGet_objSet_self]
      · simp [hk, he, objGet_objSet_other _ _ _ _ (Ne.symm he)]

/-! ### Branch-invariance lemmas for the response callback -/

theorem getMoreUntilDone_reading (cfg : Config) (st : EngineState)
    (resp : Except JsErr Response) :
    ((getMoreUntilDone cfg st resp).1).reading = st.reading := by
  cases resp with
  | error e => rfl
  | ok r =>
    unfold getMoreUntilDone
    dsimp only
    split
    · rfl
    split
    · rfl
    split
    · rfl
    split
    · rfl
    · rfl

theorem getMoreUntilDone_forceClose (cfg : Config) (st : EngineState)
    (resp : Except JsErr Response) :
    ((getMoreUntilDone cfg st resp).1).forceClose = st.forceClose := by
  cases resp with
  | error e => rfl
  | ok r =>
    unfold getMoreUntilDone
    dsimp only
    split
    · rfl
    split
    · rfl
    split
    · rfl
    split
    · rfl
    · rfl

/-! ### Concrete fixtures used by counterexamples and witnesses -/

def cfg0 : Config :=
  { scroll := "10m", extrafields := ["_id"], objectMode := true }

def st0 : EngineState :=
  { reading := true, counter := 0, total := 0, forceClose := false }

def errBoom : JsErr := { payload := "boom" }

def bodyEmpty : Body :=
  { total := TotalVal.plain 0, timedOut := false,
    shards := { failed := 0, detail := "" }, hits := [], scrollId := "s1" }

/-- C1 counterexample: on a client-level error the engine does not set the
in-flight flag to false — after the error callback at a concrete state the
flag is still true, contradicting the claim that it is set to false. -/
theorem c1_counterexample :
    ((getMoreUntilDone cfg0 st0 (Except.error errBoom)).1).reading ≠ false := by
  decide

/-- C1 (amended): on a client-level error the engine leaves its state
unchanged — in particular the in-flight flag keeps its value (true during
a pull) rather than being reset to false — signals the client's error
verbatim (thereby carrying the underlying cause), and issues no further
client call in that cycle (no retry). -/
theorem c1_client_error_behavior (cfg : Config) (st : EngineState)
    (e : JsErr) :
    getMoreUntilDone cfg st (Except.error e) =
      (st, [Ev.emitError (ErrVal.client e)], Next.errorStop) := rfl

/-- C5: a pull invoked while the in-flight flag is true is a no-op — the
state is unchanged and no client call is issued. -/
theorem c5_reentry_noop (st : EngineState) (h : st.reading = true) :
    readStep st = (st, ReadAction.noCall) := by
  simp [readStep, h]

/-- C5 witness at a concrete in-flight state. -/
theorem c5_witness :
    st0.reading = true ∧ readStep st0 = (st0, ReadAction.noCall) :=
  ⟨rfl, c5_reentry_noop st0 rfl⟩

/-- C6: in the record built for a hit, every requested optional metadata
field holds the hit's top-level value (overwriting any same-named base
field), and every other field holds the base value — the server-selected
`fields` projection when present, else the full `_source` body. -/
theorem c6_record_fields (ef : List String) (hit : Hit) (k : String) :
    objGet (buildRecord ef hit) k =
      if k ∈ ef then objGet hit.top k
      else objGet (match hit.fields with
        | some f => f
        | none => hit.source) k := by
  unfold buildRecord
  exact objGet_fold_extras hit.top ef _ k

/-- C7: on every successful response the stored expected total is the
normalization of the reported total, and the normalization maps a plain
count to itself and a structured value/relation object to its value. -/
theorem c7_total_normalization (cfg : Config) (st : EngineState)
    (r : Response) :
    ((getMoreUntilDone cfg st (Except.ok r)).1).total
        = normalizeTotal r.getBody.total
    ∧ (∀ n : Int, normalizeTotal (TotalVal.plain n) = n)
    ∧ (∀ v : Int, ∀ rel : String,
        normalizeTotal (TotalVal.structured v rel) = v) := by
  refine ⟨?_, fun n => rfl, fun v rel => rfl⟩
  unfold getMoreUntilDone
  dsimp only
  split
  · rfl
  split
  · rfl
  split
  · rfl
  split
  · rfl
  · rfl

/-- C8: the synchronous part of the release callback leaves the engine
state untouched and pushes nothing; it always schedules the deferred
finalization block, and that block — and only it — resets the counter,
the force-stop flag and the in-flight flag and signals end-of-sequence. -/
theorem c8_deferred_reset (st : EngineState) (err : Option JsErr) :
    (clearScrollCallback st err).1 = st
    ∧ (clearScrollCallback st err).2.2 = true
    ∧ ((clearScrollCallback st err).2.1.any Ev.isPush) = false
    ∧ (deferredFinalize st).1.counter = 0
    ∧ (deferredFinalize st).1.forceClose = false
    ∧ (deferredFinalize st).1.reading = false
    ∧ (deferredFinalize st).1.total = st.total
    ∧ (deferredFinalize st).2 = [Ev.pushNull] := by
  cases err <;>
    exact ⟨rfl, rfl, rfl, rfl, rfl, rfl, rfl, rfl⟩

/-- C9: finalization proceeds identically whether the scroll release
succeeds or fails — the state and the scheduling of the deferred
finalization are the same, a release failure is only logged and never
emitted on the error channel, and the deferred reset-and-end block is the
same in both cases. -/
theorem c9_release_failure_swallowed (st : EngineState) (e : JsErr) :
    (clearScrollCallback st (some e)).1 = (clearScrollCallback st none).1
    ∧ (clearScrollCallback st (some e)).2.2
        = (clearScrollCallback st none).2.2
    ∧ (clearScrollCallback st (some e)).2.1 = [Ev.logError e]
    ∧ ((clearScrollCallback st (some e)).2.1.any Ev.isEmitError) = false
    ∧ deferredFinalize ((clearScrollCallback st (some e)).1)
        = deferredFinalize ((clearScrollCallback st none).1) :=
  ⟨rfl, rfl, rfl, rfl, rfl⟩

/-! ### Zero-hit pages (premature-exhaustion check) -/

theorem isIncompleteError_pushHit (cfg : Config) (r : Obj) :
    Ev.isIncompleteError (pushHit cfg r) = false := by
  unfold pushHit
  split <;> rfl

/-- C2 counterexample: a zero-hit page arriving while the emitted count
already equals the expected total (both 0) still produces the
incomplete-result error, contradicting the claim that it does not. -/
theorem c2_counterexample :
    ((getMoreUntilDone cfg0 st0 (Except.ok (Response.bare bodyEmpty))).1.total
      = (((getMoreUntilDone cfg0 st0
            (Except.ok (Response.bare bodyEmpty))).1.counter : Nat) : Int))
    ∧ (((getMoreUntilDone cfg0 st0
          (Except.ok (Response.bare bodyEmpty))).2.1).any
        Ev.isIncompleteError) = true := by
  decide

/-- C2 (amended): for a page reporting no timeout and no shard failure,
the incomplete-result error is signaled if and only if the page contains
zero hits — regardless of whether the emitted count has reached the
expected total — and when it fires it carries the missing count
expectedTotal - emittedCount (which may be 0). -/
theorem c2_zero_hits_error (cfg : Config) (st : EngineState) (r : Response)
    (hT : r.getBody.timedOut = false)
    (hS : ¬ r.getBody.shards.failed > 0) :
    ((((getMoreUntilDone cfg st (Except.ok r)).2.1).any
        Ev.isIncompleteError) = true ↔ r.getBody.hits.length = 0)
    ∧ (r.getBody.hits.length = 0 →
        (getMoreUntilDone cfg st (Except.ok r)).2.1 =
          [Ev.logMsg ("Read 0 (" ++ toString st.counter ++ "/"
              ++ toString (normalizeTotal r.getBody.total) ++ ")"),
           Ev.emitError (ErrVal.incomplete
             ("No more hits. Expected "
               ++ toString (normalizeTotal r.getBody.total - (st.counter : Int))
               ++ " more objects. Closing stream.")
             (normalizeTotal r.getBody.total) st.counter
             (normalizeTotal r.getBody.total - (st.counter : Int)))]) := by
  by_cases hH : r.getBody.hits.length = 0
  · refine ⟨?_, fun _ => ?_⟩
    · simp [getMoreUntilDone, hT, hS, hH, Ev.isIncompleteError,
        ErrVal.isIncomplete]
    · simp [getMoreUntilDone, hT, hS, hH]
  · refine ⟨?_, fun h => absurd h hH⟩
    have hfalse : (((getMoreUntilDone cfg st (Except.ok r)).2.1).any
        Ev.isIncompleteError) = false := by
      simp only [getMoreUntilDone]
      simp only [hT, hS, hH, Bool.false_eq_true, if_false]
      split <;>
      · simp [List.any_append, List.any_map, Function.comp,
          Ev.isIncompleteError]
        intro a ha
        exact isIncompleteError_pushHit cfg _
    simp [hfalse, hH]

/-- C2 witness: scenario D — emitted count 1, expected total 5, zero-hit
page — satisfies the amended theorem's hypotheses and fires the error. -/
theorem c2_zero_hits_error_witness :
    (Response.bare
      { total := TotalVal.plain 5, timedOut := false,
        shards := { failed := 0, detail := "" }, hits := [],
        scrollId := "sD" }).getBody.timedOut = false
    ∧ ¬ (Response.bare
      { total := TotalVal.plain 5, timedOut := false,
        shards := { failed := 0, detail := "" }, hits := [],
        scrollId := "sD" }).getBody.shards.failed > 0
    ∧ ((((getMoreUntilDone cfg0
          { reading := true, counter := 1, total := 0, forceClose := false }
          (Except.ok (Response.bare
            { total := TotalVal.plain 5, timedOut := false,
              shards := { failed := 0, detail := "" }, hits := [],
              scrollId := "sD" }))).2.1).any Ev.isIncompleteError) = true
        ↔ (Response.bare
          { total := TotalVal.plain 5, timedOut := false,
            shards := { failed := 0, detail := "" }, hits := [],
            scrollId := "sD" }).getBody.hits.length = 0) :=
  ⟨rfl, by decide,
    (c2_zero_hits_error cfg0
      { reading := true, counter := 1, total := 0, forceClose := false }
      (Response.bare
        { total := TotalVal.plain 5, timedOut := false,
          shards := { failed := 0, detail := "" }, hits := [],
          scrollId := "sD" }) rfl (by decide)).1⟩

/-! ### Error payloads -/

theorem pushHit_ne_emitError (cfg : Config) (r : Obj) (e : ErrVal) :
    pushHit cfg r ≠ Ev.emitError e := by
  unfold pushHit
  split <;> simp

/-- A page whose server-side request timed out, used to witness the
error-payload theorem. -/
def bodyTimeout : Body :=
  { total := TotalVal.plain 7, timedOut := true,
    shards := { failed := 0, detail := "" }, hits := [], scrollId := "sT" }

/-- C3 counterexample: the client-level error is emitted verbatim and
carries neither a message, nor the total, nor the counter set by the
engine, contradicting the claim that every signaled error carries at
minimum a message and the (total, emittedCount) pair. -/
theorem c3_counterexample :
    (getMoreUntilDone cfg0 st0 (Except.error errBoom)).2.1
        = [Ev.emitError (ErrVal.client errBoom)]
    ∧ (ErrVal.client errBoom).message? = none
    ∧ (ErrVal.client errBoom).total? = none
    ∧ (ErrVal.client errBoom).counter? = none := by
  decide

/-- C3 (amended): every engine-built error — timeout, shard failure,
incomplete result — carries a message and the engine's current total and
counter, i.e. its `total` and `counter` properties hold exactly the
values of the engine state at emission time; the client-level error is
forwarded verbatim — the engine emits the client's error object itself,
adding nothing. -/
theorem c3_error_payloads (cfg : Config) (st : EngineState)
    (resp : Except JsErr Response) :
    (∀ e : ErrVal, Ev.emitError e ∈ (getMoreUntilDone cfg st resp).2.1 →
        e.isClient = false →
        e.message?.isSome = true
        ∧ e.total? = some ((getMoreUntilDone cfg st resp).1).total
        ∧ e.counter? = some ((getMoreUntilDone cfg st resp).1).counter)
    ∧ ∀ err : JsErr,
        getMoreUntilDone cfg st (Except.error err)
          = (st, [Ev.emitError (ErrVal.client err)], Next.errorStop) := by
  refine ⟨?_, fun err => rfl⟩
  intro e hmem hnc
  cases resp with
  | error err =>
    simp [getMoreUntilDone] at hmem
    subst hmem
    simp [ErrVal.isClient] at hnc
  | ok r =>
    revert hmem
    unfold getMoreUntilDone
    dsimp only
    split
    · intro hmem
      simp at hmem
      subst hmem
      exact ⟨rfl, rfl, rfl⟩
    split
    · intro hmem
      simp at hmem
      subst hmem
      exact ⟨rfl, rfl, rfl⟩
    split
    · intro hmem
      simp at hmem
      subst hmem
      exact ⟨rfl, rfl, rfl⟩
    split <;>
    · intro hmem
      simp [List.mem_append, List.mem_map] at hmem
      rcases hmem with ⟨a, _, ha⟩
      exact absurd ha (pushHit_ne_emitError cfg _ e)

/-- C3 witness: at a concrete timed-out page the emitted timeout error is
among the events, is not a client error, and its total and counter equal
the engine's current values. -/
theorem c3_error_payloads_witness :
    (Ev.emitError (ErrVal.timeout "Scroll request timed out" 7 0)
        ∈ (getMoreUntilDone cfg0 st0
            (Except.ok (Response.bare bodyTimeout))).2.1)
    ∧ (ErrVal.timeout "Scroll request timed out" 7 0).isClient = false
    ∧ ((ErrVal.timeout "Scroll request timed out" 7 0).message?.isSome = true
        ∧ (ErrVal.timeout "Scroll request timed out" 7 0).total?
            = some ((getMoreUntilDone cfg0 st0
                (Except.ok (Response.bare bodyTimeout))).1).total
        ∧ (ErrVal.timeout "Scroll request timed out" 7 0).counter?
            = some ((getMoreUntilDone cfg0 st0
                (Except.ok (Response.bare bodyTimeout))).1).counter) :=
  ⟨by decide, by decide,
    (c3_error_payloads cfg0 st0 (Except.ok (Response.bare bodyTimeout))).1
      (ErrVal.timeout "Scroll request timed out" 7 0)
      (by decide) (by decide)⟩

/-! ### Continuation decision -/

theorem getMoreUntilDone_forceClose_no_scroll (cfg : Config)
    (st : EngineState) (resp : Except JsErr Response)
    (h : st.forceClose = true) :
    ((getMoreUntilDone cfg st resp).2.2).isScroll = false := by
  cases resp with
  | error e => rfl
  | ok r =>
    unfold getMoreUntilDone
    dsimp only
    split
    · rfl
    split
    · rfl
    split
    · rfl
    split
    · rename_i hcond
      exact absurd hcond.2 (by simp [h])
    · rfl

/-- C4: after a successful error-free page, the single follow-up client
call is the scroll continuation — with the configured keep-alive and the
page's token — exactly when the updated counter differs from the updated
total and no forced stop was requested, and otherwise the single scroll
release; moreover once close() has been called, no response processed
afterwards leads to a continuation call. -/
theorem c4_continuation_decision (cfg : Config) (st : EngineState)
    (r : Response)
    (hT : r.getBody.timedOut = false)
    (hS : ¬ r.getBody.shards.failed > 0)
    (hH : ¬ r.getBody.hits.length = 0) :
    ((getMoreUntilDone cfg st (Except.ok r)).2.2 =
      if normalizeTotal r.getBody.total
            ≠ ((st.counter + r.getBody.hits.length : Nat) : Int)
          ∧ st.forceClose = false
      then Next.scrollNext cfg.scroll r.getBody.scrollId
      else Next.clearNext r.getBody.scrollId)
    ∧ ∀ resp : Except JsErr Response,
        ((getMoreUntilDone cfg (close st) resp).2.2).isScroll = false := by
  refine ⟨?_, fun resp =>
    getMoreUntilDone_forceClose_no_scroll cfg (close st) resp rfl⟩
  by_cases hc : normalizeTotal r.getBody.total
      ≠ ((st.counter + r.getBody.hits.length : Nat) : Int)
      ∧ st.forceClose = false
  · simp [getMoreUntilDone, hT, hS, hH, hc]
    split <;> rfl
  · simp [getMoreUntilDone, hT, hS, hH, hc]
    split <;> rfl

/-- C4 witness: a one-hit page (counter 0 → 1, total 2) with no timeout
and no shard failure leads to exactly one continuation call carrying the
configured keep-alive and the page's token. -/
theorem c4_continuation_decision_witness :
    (Response.withBody
      { total := TotalVal.structured 2 "eq", timedOut := false,
        shards := { failed := 0, detail := "" },
        hits := [{ fields := none, source := [("a", JsVal.num 1)],
                   top := [("_id", JsVal.str "h1")] }],
        scrollId := "tok1" }).getBody.timedOut = false
    ∧ ¬ (Response.withBody
      { total := TotalVal.structured 2 "eq", timedOut := false,
        shards := { failed := 0, detail := "" },
        hits := [{ fields := none, source := [("a", JsVal.num 1)],
                   top := [("_id", JsVal.str "h1")] }],
        scrollId := "tok1" }).getBody.shards.failed > 0
    ∧ ¬ (Response.withBody
      { total := TotalVal.structured 2 "eq", timedOut := false,
        shards := { failed := 0, detail := "" },
        hits := [{ fields := none, source := [("a", JsVal.num 1)],
                   top := [("_id", JsVal.str "h1")] }],
        scrollId := "tok1" }).getBody.hits.length = 0
    ∧ (getMoreUntilDone cfg0 st0 (Except.ok (Response.withBody
      { total := TotalVal.structured 2 "eq", timedOut := false,
        shards := { failed := 0, detail := "" },
        hits := [{ fields := none, source := [("a", JsVal.num 1)],
                   top := [("_id", JsVal.str "h1")] }],
        scrollId := "tok1" }))).2.2
        = Next.scrollNext cfg0.scroll "tok1" := by
  refine ⟨rfl, by decide, by decide, ?_⟩
  rw [(c4_continuation_decision cfg0 st0 (Response.withBody
      { total := TotalVal.structured 2 "eq", timedOut := false,
        shards := { failed := 0, detail := "" },
        hits := [{ fields := none, source := [("a", JsVal.num 1)],
                   top := [("_id", JsVal.str "h1")] }],
        scrollId := "tok1" }) rfl (by decide) (by decide)).1]
  decide

/-! ### Inertness after an error -/

theorem applyOps_reading_invariant (ops : List Op) (st : EngineState)
    (h : st.reading = true) :
    (applyOps st ops).1.reading = true
    ∧ ∀ a ∈ (applyOps st ops).2, a = ReadAction.noCall := by
  induction ops generalizing st with
  | nil =>
    exact ⟨h, by intro a ha; simp [applyOps] at ha⟩
  | cons op ops ih =>
    cases op with
    | pull =>
      have hr : readStep st = (st, ReadAction.noCall) := by
        simp [readStep, h]
      have hrec := ih st h
      constructor
      · simpa [applyOps, applyOp, hr] using hrec.1
      · intro a ha
        simp [applyOps, applyOp, hr] at ha
        rcases ha with h1 | h2
        · exact h1
        · exact hrec.2 a h2
    | closeOp =>
      have hrec := ih (close st) (by simp [close, h])
      constructor
      · simpa [applyOps, applyOp] using hrec.1
      · intro a ha
        simp [applyOps, applyOp] at ha
        rcases ha with h1 | h2
        · exact h1
        · exact hrec.2 a h2

/-- C10: once the response callback bails out with an error while a pull
is in flight, the in-flight flag is still true, and it stays true across
any subsequent sequence of pulls and closes, none of which issues a
client call. -/
theorem c10_post_error_inert (cfg : Config) (st : EngineState)
    (resp : Except JsErr Response) (ops : List Op)
    (hre : st.reading = true)
    (herr : (getMoreUntilDone cfg st resp).2.2 = Next.errorStop) :
    ((getMoreUntilDone cfg st resp).1).reading = true
    ∧ (applyOps (getMoreUntilDone cfg st resp).1 ops).1.reading = true
    ∧ ∀ a ∈ (applyOps (getMoreUntilDone cfg st resp).1 ops).2,
        a = ReadAction.noCall := by
  have h1 : ((getMoreUntilDone cfg st resp).1).reading = true := by
    rw [getMoreUntilDone_reading]
    exact hre
  exact ⟨h1, (applyOps_reading_invariant ops _ h1).1,
    (applyOps_reading_invariant ops _ h1).2⟩

/-- C10 witness: after a concrete client error, a pull, a close and
another pull leave the in-flight flag true and issue no client call. -/
theorem c10_post_error_inert_witness :
    st0.reading = true
    ∧ (getMoreUntilDone cfg0 st0 (Except.error errBoom)).2.2
        = Next.errorStop
    ∧ ((getMoreUntilDone cfg0 st0 (Except.error errBoom)).1).reading = true
    ∧ (applyOps (getMoreUntilDone cfg0 st0 (Except.error errBoom)).1
        [Op.pull, Op.closeOp, Op.pull]).1.reading = true :=
  ⟨rfl, rfl,
    (c10_post_error_inert cfg0 st0 (Except.error errBoom)
      [Op.pull, Op.closeOp, Op.pull] rfl rfl).1,
    (c10_post_error_inert cfg0 st0 (Except.error errBoom)
      [Op.pull, Op.closeOp, Op.pull] rfl rfl).2.1⟩
